import Mathlib

set_option linter.unusedVariables false

/-!
# Verification development for the `m2m_100` MLX port

Shallow embedding of `src/m2m_100/m2m_100.py` (model definition) and of the
greedy decode loop `forward_mlx` of `src/m2m_100/test.py`.

Modelling conventions:
* An mlx array is modelled by `MXArray`: a row-major shape together with a flat
  index-to-value function over `ℝ` (floating point is idealised as the reals).
* Python exceptions (`ValueError` from the explicit `raise` statements and from
  mlx shape checks, `AttributeError`/`TypeError` from attribute misuse) are
  modelled by the `PyError` inductive; fallible calls return
  `Except PyError MXArray`.
* Operations of the external libraries used by the source (`mlx.core`,
  `mlx.nn`, and `transformers._prepare_4d_attention_mask`) are embedded from
  their library semantics at the version the source was written against; each
  such definition documents the behaviour it translates.
-/

/-- An mlx array: a shape (list of dimension sizes, row-major) together with
its flat buffer, modelled as a total index-to-value function.  Only indices
below `shape.prod` are ever read by the operations below. -/
structure MXArray where
  shape : List ℕ
  data : ℕ → ℝ

/-- Python exceptions raised by the translated code.  The two `ValueError`s
raised explicitly by `M2M100Attention.__call__` carry the expected and the
actual shape, exactly as the source interpolates them into the message. -/
inductive PyError where
  /-- `bsz, tgt_len, _ = hidden_states.shape` on a tensor whose rank is not 3. -/
  | unpackError (shape : List ℕ)
  /-- `nn.Linear` applied to an input whose last dimension is not `in_features`. -/
  | linearShapeError (shape : List ℕ) (in_features : ℕ)
  /-- `mx.reshape` when the element counts of the two shapes differ. -/
  | reshapeError (fromShape target : List ℕ)
  /-- `mx.transpose` with axes incompatible with the array rank. -/
  | transposeRankError (shape : List ℕ)
  /-- `mx.concatenate` on arrays with incompatible shapes. -/
  | concatShapeError (s1 s2 : List ℕ)
  /-- batched `@` matmul on arrays with incompatible shapes. -/
  | matmulShapeError (s1 s2 : List ℕ)
  /-- elementwise binary op on arrays that do not broadcast together. -/
  | broadcastShapes (s1 s2 : List ℕ)
  /-- the `raise ValueError("Attention weights should be of size ...")` at
  line 140 of the source, carrying expected and actual shape. -/
  | attnWeightsSizeError (expected actual : List ℕ)
  /-- the `raise ValueError("Attention mask should be of size ...")` at
  line 150 of the source, carrying expected and actual shape. -/
  | attnMaskSizeError (expected actual : List ℕ)
  /-- `AttributeError`: the debug statement
  `print("attn_weights", attention_mask.shape)` at line 146 dereferences
  `.shape` on `None` whenever no attention mask was supplied. -/
  | noneShapeAccess
  /-- `AttributeError`: `self.activation_fn` was never assigned because the
  configured activation is neither `"gelu"` nor `"relu"`. -/
  | activationMissing
  /-- `TypeError: 'int' object is not callable`: calling `.size()` on an mlx
  array, whose `size` attribute is an `int` property, not a method.  The
  payload is the value of that property. -/
  | typeErrorNotCallable (size : ℕ)

/-- Parameters of one `nn.Linear` module (weight is `(out, in)` row-major,
flattened; all Linear layers constructed in this source carry a bias). -/
structure LinearParams where
  w : ℕ → ℝ
  b : ℕ → ℝ

/-- Parameters of one `nn.LayerNorm` module. -/
structure LnParams where
  w : ℕ → ℝ
  b : ℕ → ℝ

/-- `mlx` linear layer `y = x @ W.T + b` on an input whose last dimension must
equal `in_features`; every other dimension is preserved. -/
noncomputable def linearE (out_features in_features : ℕ) (lp : LinearParams)
    (x : MXArray) : Except PyError MXArray :=
  if x.shape.getLast? = some in_features then
    Except.ok ⟨x.shape.dropLast ++ [out_features], fun idx =>
      let r := idx / out_features
      let o := idx % out_features
      lp.b o + Finset.sum (Finset.range in_features)
        (fun i => x.data (r * in_features + i) * lp.w (o * in_features + i))⟩
  else Except.error (PyError.linearShapeError x.shape in_features)

/-- `mx.reshape` to an explicitly given shape: the element counts must agree,
the flat buffer is reused unchanged (row-major semantics). -/
def mxReshapeE (x : MXArray) (ns : List ℕ) : Except PyError MXArray :=
  if ns.prod = x.shape.prod then Except.ok ⟨ns, x.data⟩
  else Except.error (PyError.reshapeError x.shape ns)

/-- `t.transpose(0, 2, 1, 3)` on a rank-4 array `[a, b, c, d] → [a, c, b, d]`. -/
def mxTranspose4_0213 (x : MXArray) : Except PyError MXArray :=
  match x.shape with
  | [a, b, c, d] =>
    Except.ok ⟨[a, c, b, d], fun idx =>
      let i := idx / (c * b * d)
      let k := (idx / (b * d)) % c
      let j := (idx / d) % b
      let l := idx % d
      x.data (((i * b + j) * c + k) * d + l)⟩
  | _ => Except.error (PyError.transposeRankError x.shape)

/-- `t.transpose(0, 2, 1)` on a rank-3 array `[a, b, c] → [a, c, b]`. -/
def mxTranspose3_021 (x : MXArray) : Except PyError MXArray :=
  match x.shape with
  | [a, b, c] =>
    Except.ok ⟨[a, c, b], fun idx =>
      let i := idx / (c * b)
      let k := (idx / b) % c
      let j := idx % b
      x.data ((i * b + j) * c + k)⟩
  | _ => Except.error (PyError.transposeRankError x.shape)

/-- `mx.concatenate([x, y], axis=2)` on rank-4 arrays: all other dimensions
must agree. -/
def mxConcat4Axis2 (x y : MXArray) : Except PyError MXArray :=
  match x.shape, y.shape with
  | [a, b, c1, d], [a2, b2, c2, d2] =>
    if a2 = a ∧ b2 = b ∧ d2 = d then
      Except.ok ⟨[a, b, c1 + c2, d], fun idx =>
        let i := idx / (b * (c1 + c2) * d)
        let j := (idx / ((c1 + c2) * d)) % b
        let k := (idx / d) % (c1 + c2)
        let l := idx % d
        if k < c1 then x.data (((i * b + j) * c1 + k) * d + l)
        else y.data (((i * b + j) * c2 + (k - c1)) * d + l)⟩
    else Except.error (PyError.concatShapeError x.shape y.shape)
  | _, _ => Except.error (PyError.concatShapeError x.shape y.shape)

/-- batched matrix product `x @ y` for rank-3 arrays
`[B, M, K] @ [B, K, N] → [B, M, N]`. -/
noncomputable def mxMatmul3 (x y : MXArray) : Except PyError MXArray :=
  match x.shape, y.shape with
  | [bB, m, k], [bB2, k2, n] =>
    if bB2 = bB ∧ k2 = k then
      Except.ok ⟨[bB, m, n], fun idx =>
        let i := idx / (m * n)
        let r := (idx / n) % m
        let c := idx % n
        Finset.sum (Finset.range k)
          (fun t => x.data ((i * m + r) * k + t) * y.data ((i * k + t) * n + c))⟩
    else Except.error (PyError.matmulShapeError x.shape y.shape)
  | _, _ => Except.error (PyError.matmulShapeError x.shape y.shape)

/-- Elementwise addition; the only broadcast used outside the attention-mask
addition is between arrays of identical shape. -/
noncomputable def mxAdd (x y : MXArray) : Except PyError MXArray :=
  if x.shape = y.shape then Except.ok ⟨x.shape, fun i => x.data i + y.data i⟩
  else Except.error (PyError.broadcastShapes x.shape y.shape)

/-- The broadcast addition `attn_weights.reshape(bsz, heads, tgt, src) +
attention_mask` of line 154: a rank-4 `[a, b, c, d]` plus a rank-4
`[a, b2, c, d]` with `b2 = b` or `b2 = 1` (the head axis is broadcast).  At
this call site the mask shape was already checked to be `[bsz, 1, tgt, src]`. -/
noncomputable def mxAddBroadcast4 (x y : MXArray) : Except PyError MXArray :=
  match x.shape, y.shape with
  | [a, b, c, d], [a2, b2, c2, d2] =>
    if a2 = a ∧ (b2 = b ∨ b2 = 1) ∧ c2 = c ∧ d2 = d then
      Except.ok ⟨[a, b, c, d], fun idx =>
        let i := idx / (b * c * d)
        let j := (idx / (c * d)) % b
        let k := (idx / d) % c
        let l := idx % d
        x.data idx + y.data (((i * b2 + (if b2 = 1 then 0 else j)) * c2 + k) * d2 + l)⟩
    else Except.error (PyError.broadcastShapes x.shape y.shape)
  | _, _ => Except.error (PyError.broadcastShapes x.shape y.shape)

/-- `mx.softmax(x, axis=-1)`: shape preserving, each slice along the last axis
is exponentiated and normalised.  (The `astype` at line 157 of the source is
the identity here since all values are modelled as reals.) -/
noncomputable def mxSoftmaxLast (x : MXArray) : MXArray :=
  let n := (x.shape.getLast?).getD 1
  ⟨x.shape, fun idx =>
    let row := idx / n
    Real.exp (x.data idx) /
      Finset.sum (Finset.range n) (fun t => Real.exp (x.data (row * n + t)))⟩

/-- Multiplication of every entry by a scalar (`inputs_embeds * self.embed_scale`). -/
noncomputable def mxScale (c : ℝ) (x : MXArray) : MXArray :=
  ⟨x.shape, fun i => x.data i * c⟩

/-! ## `mlx.nn.SinusoidalPositionalEncoding`

`M2M100SinusoidalPositionalEmbedding.__init__` stores
`self.weights = nn.SinusoidalPositionalEncoding(embedding_dim)` and its
`__call__(input_ids, past_key_values_length=0)` returns
`self.weights(input_ids)`.

The mlx library module (defaults `min_freq = 0.0001`, `max_freq = 1`,
`scale = (2 / dims) ** 0.5`, `cos_first = False`, `full_turns = False`)
computes, for an input value `x`, the vector
`scale * [sin (x * σ_0), …, sin (x * σ_{h-1}), cos (x * σ_0), …]` with
`h = dims // 2` and `σ_i = exp ((1 - i / (h - 1)) * (log max - log min) + log min)`.
Crucially it encodes the *values* of its input array — the caller is expected
to pass positions, while this source passes the token ids. -/

/-- The frequency `σ_i` of `nn.SinusoidalPositionalEncoding` (defaults
`min_freq = 0.0001`, `max_freq = 1`, `full_turns = False`).  `dims / 2 - 1`
is integer arithmetic as in the Python source. -/
noncomputable def sinPESigma (dims : ℕ) (i : ℕ) : ℝ :=
  Real.exp ((1 - (i : ℝ) / ((dims / 2 - 1 : ℕ) : ℝ))
      * (Real.log 1 - Real.log (1 / 10000)) + Real.log (1 / 10000))

/-- The default output scale `(2 / dims) ** 0.5` of
`nn.SinusoidalPositionalEncoding`. -/
noncomputable def sinPEScale (dims : ℕ) : ℝ := Real.sqrt (2 / (dims : ℝ))

/-- Entry `j` of the encoding of the scalar `x`: the first `dims / 2` entries
hold sines, the remaining ones cosines (`cos_first = False`).  The final
`y = y * self.scale` multiplication is applied unconditionally here; the
library skips it only when `scale == 1`, in which case it is the identity. -/
noncomputable def sinPEEntry (dims : ℕ) (x : ℝ) (j : ℕ) : ℝ :=
  sinPEScale dims *
    (if j < dims / 2 then Real.sin (x * sinPESigma dims j)
     else Real.cos (x * sinPESigma dims (j - dims / 2)))

/-- The encoding vector of one scalar input value: length `2 * (dims / 2)`
(the two halves concatenated along the last axis). -/
noncomputable def sinPEVec (dims : ℕ) (x : ℝ) : List ℝ :=
  (List.range (2 * (dims / 2))).map (sinPEEntry dims x)

/-- `M2M100SinusoidalPositionalEmbedding.__call__(input_ids,
past_key_values_length)`: returns `self.weights(input_ids)`, i.e. the
sinusoidal encoding of every *token id value* in the grid.  The
`past_key_values_length` argument is ignored by the source (line 63), as are
the `offset`, `padding_idx` and `num_positions` attributes set in `__init__`. -/
noncomputable def M2M100SinusoidalPositionalEmbedding_call (embedding_dim : ℕ)
    (input_ids : List (List ℕ)) (past_key_values_length : ℕ) :
    List (List (List ℝ)) :=
  input_ids.map (fun row => row.map (fun (tok : ℕ) => sinPEVec embedding_dim (tok : ℝ)))

/-! ## `M2M100Attention` -/

/-- Module state of `M2M100Attention` after `__init__`.  Note that `__init__`
performs no divisibility check: `head_dim` is the floor `embed_dim // num_heads`
(the `scaling = head_dim ** -0.5` attribute is also set by `__init__`, but the
`__call__` of this port never multiplies the query by it, so it is omitted
here). -/
structure M2M100AttentionP where
  embed_dim : ℕ
  num_heads : ℕ
  dropout : ℝ
  head_dim : ℕ
  is_decoder : Bool
  bias : Bool
  is_causal : Bool
  k_proj : LinearParams
  v_proj : LinearParams
  q_proj : LinearParams
  out_proj : LinearParams

/-- `M2M100Attention.__init__(embed_dim, num_heads, dropout, is_decoder, bias,
is_causal)`: stores the hyperparameters and `head_dim = embed_dim // num_heads`
(integer floor division, no check that the division is exact), and creates the
four `nn.Linear(embed_dim, embed_dim, bias=bias)` projections, whose loaded
parameters are passed in here. -/
def M2M100Attention_init (embed_dim num_heads : ℕ) (dropout : ℝ)
    (is_decoder bias is_causal : Bool)
    (k_proj v_proj q_proj out_proj : LinearParams) : M2M100AttentionP :=
  { embed_dim := embed_dim
    num_heads := num_heads
    dropout := dropout
    head_dim := embed_dim / num_heads
    is_decoder := is_decoder
    bias := bias
    is_causal := is_causal
    k_proj := k_proj
    v_proj := v_proj
    q_proj := q_proj
    out_proj := out_proj }

/-- The `_shape` helper (lines 93-95): `tensor.reshape(bsz, seq_len, num_heads,
head_dim).transpose(0, 2, 1, 3)`.  `seq_len = none` models the `-1` the source
passes at lines 116-125: the length is inferred from the element count, failing
if it does not divide evenly (mlx reshape semantics). -/
def M2M100Attention_shape (p : M2M100AttentionP) (x : MXArray)
    (seq_len : Option ℕ) (bsz : ℕ) : Except PyError MXArray := do
  let r ← (match seq_len with
    | some s => mxReshapeE x [bsz, s, p.num_heads, p.head_dim]
    | none =>
      let known := bsz * p.num_heads * p.head_dim
      if known ≠ 0 ∧ x.shape.prod % known = 0 then
        Except.ok (⟨[bsz, x.shape.prod / known, p.num_heads, p.head_dim], x.data⟩ : MXArray)
      else Except.error (PyError.reshapeError x.shape [bsz, p.num_heads, p.head_dim]))
  mxTranspose4_0213 r

/-- The key/value computation of `__call__` (lines 105-125).  Python branch
structure: reuse the cache iff cross-attending and a cache exists whose key
length (`past_key_value[0].shape[2]`) equals the key/value-source length
(`key_value_states.shape[1]`); else project from `key_value_states` when
cross-attending; else project from `hidden_states` and, when a self-attention
cache is present (`elif past_key_value:` — a nonempty tuple is truthy),
concatenate the cache in front along axis 2. -/
noncomputable def M2M100Attention_kv (p : M2M100AttentionP) (hidden_states : MXArray)
    (key_value_states : Option MXArray)
    (past_key_value : Option (MXArray × MXArray)) (bsz : ℕ) :
    Except PyError (MXArray × MXArray) :=
  match key_value_states, past_key_value with
  | some kvs, some pkv =>
    if pkv.1.shape.getD 2 0 = kvs.shape.getD 1 0 then
      Except.ok (pkv.1, pkv.2)
    else do
      let kp ← linearE p.embed_dim p.embed_dim p.k_proj kvs
      let ks ← M2M100Attention_shape p kp none bsz
      let vp ← linearE p.embed_dim p.embed_dim p.v_proj kvs
      let vs ← M2M100Attention_shape p vp none bsz
      Except.ok (ks, vs)
  | some kvs, none => do
      let kp ← linearE p.embed_dim p.embed_dim p.k_proj kvs
      let ks ← M2M100Attention_shape p kp none bsz
      let vp ← linearE p.embed_dim p.embed_dim p.v_proj kvs
      let vs ← M2M100Attention_shape p vp none bsz
      Except.ok (ks, vs)
  | none, some pkv => do
      let kp ← linearE p.embed_dim p.embed_dim p.k_proj hidden_states
      let ksNew ← M2M100Attention_shape p kp none bsz
      let vp ← linearE p.embed_dim p.embed_dim p.v_proj hidden_states
      let vsNew ← M2M100Attention_shape p vp none bsz
      let ks ← mxConcat4Axis2 pkv.1 ksNew
      let vs ← mxConcat4Axis2 pkv.2 vsNew
      Except.ok (ks, vs)
  | none, none => do
      let kp ← linearE p.embed_dim p.embed_dim p.k_proj hidden_states
      let ks ← M2M100Attention_shape p kp none bsz
      let vp ← linearE p.embed_dim p.embed_dim p.v_proj hidden_states
      let vs ← M2M100Attention_shape p vp none bsz
      Except.ok (ks, vs)

/-- The remainder of `__call__` after key/value states are computed
(lines 130-169): reshape everything to `proj_shape = (bsz * num_heads,
tgt_len, head_dim)` — note the source hard-codes `tgt_len` here, including for
the key/value states —, compute raw scores (the query is *not* multiplied by
`scaling` in this port), check the score shape, dereference
`attention_mask.shape` in a debug print (an `AttributeError` when the mask is
`None`), check the mask shape, add the mask with broadcast over heads, softmax,
weight the values, restore `[bsz, tgt_len, embed_dim]` and apply `out_proj`. -/
noncomputable def M2M100Attention_core (p : M2M100AttentionP) (bsz tgt_len : ℕ)
    (query_states key_states value_states : MXArray)
    (attention_mask : Option MXArray) : Except PyError MXArray := do
  let proj_shape : List ℕ := [bsz * p.num_heads, tgt_len, p.head_dim]
  let qs ← M2M100Attention_shape p query_states (some tgt_len) bsz
  let q2 ← mxReshapeE qs proj_shape
  let k2 ← mxReshapeE key_states proj_shape
  let v2 ← mxReshapeE value_states proj_shape
  let src_len := k2.shape.getD 1 0
  let kT ← mxTranspose3_021 k2
  let attn_weights ← mxMatmul3 q2 kT
  if attn_weights.shape ≠ [bsz * p.num_heads, tgt_len, src_len] then
    Except.error (PyError.attnWeightsSizeError
      [bsz * p.num_heads, tgt_len, src_len] attn_weights.shape)
  else
    match attention_mask with
    | none =>
      -- `print("attn_weights", attention_mask.shape)` (line 146):
      -- AttributeError, `None` has no attribute `shape`.
      Except.error PyError.noneShapeAccess
    | some mask =>
      if mask.shape ≠ [bsz, 1, tgt_len, src_len] then
        Except.error (PyError.attnMaskSizeError
          [bsz, 1, tgt_len, src_len] mask.shape)
      else do
        let aw ← mxReshapeE attn_weights [bsz, p.num_heads, tgt_len, src_len]
        let aw2 ← mxAddBroadcast4 aw mask
        let aw3 ← mxReshapeE aw2 [bsz * p.num_heads, tgt_len, src_len]
        let awS := mxSoftmaxLast aw3
        let attn_outputs ← mxMatmul3 awS v2
        let ao ← mxReshapeE attn_outputs [bsz, p.num_heads, tgt_len, p.head_dim]
        let ao2 ← mxTranspose4_0213 ao
        let ao3 ← mxReshapeE ao2 [bsz, tgt_len, p.embed_dim]
        linearE p.embed_dim p.embed_dim p.out_proj ao3

/-- `M2M100Attention.__call__(hidden_states, key_value_states, past_key_value,
attention_mask, layer_head_mask)` (lines 97-169).  The `if self.is_decoder:
past_key_value = (key_states, value_states)` at lines 127-128 rebinds a local
variable that is never used again: the function's `return attn_output`
(line 169) returns only the bare output array, for decoders and encoders
alike. -/
noncomputable def M2M100Attention_call (p : M2M100AttentionP)
    (hidden_states : MXArray) (key_value_states : Option MXArray)
    (past_key_value : Option (MXArray × MXArray))
    (attention_mask : Option MXArray) : Except PyError MXArray :=
  match hidden_states.shape with
  | [bsz, tgt_len, _] => do
    let query_states ← linearE p.embed_dim p.embed_dim p.q_proj hidden_states
    let kv ← M2M100Attention_kv p hidden_states key_value_states past_key_value bsz
    M2M100Attention_core p bsz tgt_len query_states kv.1 kv.2 attention_mask
  | _ => Except.error (PyError.unpackError hidden_states.shape)

/-- The dynamic type of the value a translated Python function returns:
either a bare array or an array together with a `(key, value)` cache tuple. -/
inductive PyRet where
  | arr (a : MXArray)
  | withCache (out : MXArray) (cache : MXArray × MXArray)

/-- The Python value returned by `M2M100Attention.__call__`: the source's
`return attn_output` always produces a bare array (`PyRet.arr`); the
`(key_states, value_states)` tuple bound at line 128 is discarded. -/
noncomputable def M2M100Attention_ret (p : M2M100AttentionP)
    (hidden_states : MXArray) (key_value_states : Option MXArray)
    (past_key_value : Option (MXArray × MXArray))
    (attention_mask : Option MXArray) : Except PyError PyRet :=
  (M2M100Attention_call p hidden_states key_value_states past_key_value
    attention_mask).map PyRet.arr

/-! ## Configuration, layer normalisation and activations -/

/-- The `ModelArgs` dataclass (lines 23-48), field for field.  Floats are
modelled as `ℝ`, token ids and counts as `ℕ`. -/
structure ModelArgs where
  vocab_size : ℕ
  max_position_embeddings : ℕ
  encoder_layers : ℕ
  encoder_ffn_dim : ℕ
  encoder_attention_heads : ℕ
  decoder_layers : ℕ
  decoder_ffn_dim : ℕ
  decoder_attention_heads : ℕ
  encoder_layerdrop : ℝ
  decoder_layerdrop : ℝ
  use_cache : Bool
  is_encoder_decoder : Bool
  activation_function : String
  d_model : ℕ
  dropout : ℝ
  attention_dropout : ℝ
  activation_dropout : ℝ
  init_std : ℝ
  decoder_start_token_id : ℕ
  scale_embedding : Bool
  pad_token_id : ℕ
  bos_token_id : ℕ
  eos_token_id : ℕ
  num_hidden_layers : ℕ

/-- The activation attribute of an encoder/decoder layer: the `__init__`s set
`self.activation_fn` only when the configured name is `"gelu"` or `"relu"`
(lines 189-192 and 239-242); any other name leaves it unset, so calling it
raises `AttributeError` (modelled by `ActKind.unset`). -/
inductive ActKind where
  | gelu
  | relu
  | unset

/-- The activation chosen by the layer `__init__`s from
`config.activation_function`. -/
def mkActKind (s : String) : ActKind :=
  if s = "gelu" then ActKind.gelu else if s = "relu" then ActKind.relu
  else ActKind.unset

/-- The Gauss error function, used by the exact GELU. -/
noncomputable def erfReal (x : ℝ) : ℝ :=
  (2 / Real.sqrt Real.pi) * ∫ t in (0 : ℝ)..x, Real.exp (-(t ^ 2))

/-- `nn.GELU()` (exact variant): `x * Φ(x)` with the Gaussian CDF `Φ`. -/
noncomputable def geluReal (x : ℝ) : ℝ := x * ((1 + erfReal (x / Real.sqrt 2)) / 2)

/-- `nn.ReLU()`. -/
noncomputable def reluReal (x : ℝ) : ℝ := max x 0

/-- Applying the layer's activation attribute elementwise; `unset` raises
(`AttributeError`, see `ActKind`). -/
noncomputable def applyAct : ActKind → MXArray → Except PyError MXArray
  | ActKind.gelu, x => Except.ok ⟨x.shape, fun i => geluReal (x.data i)⟩
  | ActKind.relu, x => Except.ok ⟨x.shape, fun i => reluReal (x.data i)⟩
  | ActKind.unset, _ => Except.error PyError.activationMissing

/-- `nn.LayerNorm(dims)` (default `eps = 1e-5`, with affine parameters):
normalises each slice along the last axis, whose size must equal `dims`. -/
noncomputable def layerNormE (dims : ℕ) (ln : LnParams) (x : MXArray) :
    Except PyError MXArray :=
  if x.shape.getLast? = some dims then
    Except.ok ⟨x.shape, fun idx =>
      let r := idx / dims
      let j := idx % dims
      let mean := (Finset.sum (Finset.range dims)
        (fun t => x.data (r * dims + t))) / dims
      let varE := (Finset.sum (Finset.range dims)
        (fun t => (x.data (r * dims + t) - mean) ^ 2)) / dims
      (x.data idx - mean) / Real.sqrt (varE + 1e-5) * ln.w j + ln.b j⟩
  else Except.error (PyError.broadcastShapes x.shape [dims])

/-! ## Encoder and decoder layers -/

/-- Module state of `M2M100EncoderLayer` after `__init__` (lines 172-196). -/
structure M2M100EncoderLayerP where
  embed_dim : ℕ
  self_attn : M2M100AttentionP
  self_attn_layer_norm : LnParams
  act : ActKind
  ffn_dim : ℕ
  fc1 : LinearParams
  fc2 : LinearParams
  final_layer_norm : LnParams

/-- `M2M100EncoderLayer.__init__(config)`: self-attention with
`config.encoder_attention_heads` heads, `is_decoder=False`, `bias=True`,
`is_causal=False`; feed-forward dims `d_model ↔ encoder_ffn_dim`. -/
def M2M100EncoderLayer_init (config : ModelArgs)
    (k_proj v_proj q_proj out_proj : LinearParams)
    (saLn fLn : LnParams) (fc1 fc2 : LinearParams) : M2M100EncoderLayerP :=
  { embed_dim := config.d_model
    self_attn := M2M100Attention_init config.d_model
      config.encoder_attention_heads config.attention_dropout
      false true false k_proj v_proj q_proj out_proj
    self_attn_layer_norm := saLn
    act := mkActKind config.activation_function
    ffn_dim := config.encoder_ffn_dim
    fc1 := fc1
    fc2 := fc2
    final_layer_norm := fLn }

/-- `M2M100EncoderLayer.__call__(hidden_states, attention_mask)`
(lines 198-212): pre-norm self-attention with residual, then pre-norm
feed-forward with residual. -/
noncomputable def M2M100EncoderLayer_call (l : M2M100EncoderLayerP)
    (hidden_states : MXArray) (attention_mask : Option MXArray) :
    Except PyError MXArray := do
  let residual := hidden_states
  let h1 ← layerNormE l.embed_dim l.self_attn_layer_norm hidden_states
  let h2 ← M2M100Attention_call l.self_attn h1 none none attention_mask
  let h3 ← mxAdd h2 residual
  let residual2 := h3
  let h4 ← layerNormE l.embed_dim l.final_layer_norm h3
  let h5 ← linearE l.ffn_dim l.embed_dim l.fc1 h4
  let h6 ← applyAct l.act h5
  let h7 ← linearE l.embed_dim l.ffn_dim l.fc2 h6
  mxAdd h7 residual2

/-- Module state of `M2M100DecoderLayer` after `__init__` (lines 214-246). -/
structure M2M100DecoderLayerP where
  embed_dim : ℕ
  self_attn : M2M100AttentionP
  self_attn_layer_norm : LnParams
  encoder_attn : M2M100AttentionP
  encoder_attn_layer_norm : LnParams
  act : ActKind
  ffn_dim : ℕ
  fc1 : LinearParams
  fc2 : LinearParams
  final_layer_norm : LnParams

/-- `M2M100DecoderLayer.__init__(config)`: self-attention with
`is_decoder=True, is_causal=True`; cross-attention (`encoder_attn`) with
`is_decoder=True` (and the default `is_causal=False`); feed-forward dims
`d_model ↔ decoder_ffn_dim`. -/
def M2M100DecoderLayer_init (config : ModelArgs)
    (sa_k sa_v sa_q sa_o : LinearParams) (saLn : LnParams)
    (ea_k ea_v ea_q ea_o : LinearParams) (eaLn : LnParams)
    (fc1 fc2 : LinearParams) (fLn : LnParams) : M2M100DecoderLayerP :=
  { embed_dim := config.d_model
    self_attn := M2M100Attention_init config.d_model
      config.decoder_attention_heads config.attention_dropout
      true true true sa_k sa_v sa_q sa_o
    self_attn_layer_norm := saLn
    encoder_attn := M2M100Attention_init config.d_model
      config.decoder_attention_heads config.attention_dropout
      true true false ea_k ea_v ea_q ea_o
    encoder_attn_layer_norm := eaLn
    act := mkActKind config.activation_function
    ffn_dim := config.decoder_ffn_dim
    fc1 := fc1
    fc2 := fc2
    final_layer_norm := fLn }

/-- `M2M100DecoderLayer.__call__(hidden_states, encoder_hidden_states,
attention_mask, encoder_attention_mask)` (lines 248-277): pre-norm causal
self-attention (always called with `past_key_value=None`, line 255) with
residual; if encoder states are present, pre-norm cross-attention (also with
`past_key_value=None`, line 267) with residual; pre-norm feed-forward with
residual.  The final `return hidden_states` (line 277) returns only the
hidden-states array — no cache. -/
noncomputable def M2M100DecoderLayer_call (l : M2M100DecoderLayerP)
    (hidden_states : MXArray) (encoder_hidden_states : Option MXArray)
    (attention_mask : Option MXArray) (encoder_attention_mask : Option MXArray) :
    Except PyError MXArray := do
  let residual := hidden_states
  let h1 ← layerNormE l.embed_dim l.self_attn_layer_norm hidden_states
  let h2 ← M2M100Attention_call l.self_attn h1 none none attention_mask
  let h3 ← mxAdd h2 residual
  let h4 ← (match encoder_hidden_states with
    | none => Except.ok h3
    | some ehs => do
      let residualC := h3
      let c1 ← layerNormE l.embed_dim l.encoder_attn_layer_norm h3
      let c2 ← M2M100Attention_call l.encoder_attn c1 (some ehs) none
        encoder_attention_mask
      mxAdd c2 residualC)
  let residualF := h4
  let h5 ← layerNormE l.embed_dim l.final_layer_norm h4
  let h6 ← linearE l.ffn_dim l.embed_dim l.fc1 h5
  let h7 ← applyAct l.act h6
  let h8 ← linearE l.embed_dim l.ffn_dim l.fc2 h7
  mxAdd h8 residualF

/-- The Python value returned by `M2M100DecoderLayer.__call__`: a bare
hidden-states array, never a `(hidden_states, cache)` tuple — even though its
own caller `M2M100Decoder.__call__` indexes `layer_output[0]` (line 358) as if
a tuple were returned. -/
noncomputable def M2M100DecoderLayer_ret (l : M2M100DecoderLayerP)
    (hidden_states : MXArray) (encoder_hidden_states : Option MXArray)
    (attention_mask : Option MXArray) (encoder_attention_mask : Option MXArray) :
    Except PyError PyRet :=
  (M2M100DecoderLayer_call l hidden_states encoder_hidden_states attention_mask
    encoder_attention_mask).map PyRet.arr

/-! ## Encoder -/

/-- Module state of `M2M100Encoder` after `__init__` (lines 279-292).
`embed_tokens` is the flattened `(vocab_size, d_model)` embedding table. -/
structure M2M100EncoderP where
  d_model : ℕ
  padding_idx : ℕ
  max_source_positions : ℕ
  scale_embedding : Bool
  vocab_size : ℕ
  embed_tokens : ℕ → ℝ
  layers : List M2M100EncoderLayerP
  layer_norm : LnParams

/-- `self.embed_scale = math.sqrt(embed_dim) if config.scale_embedding else 1.0`. -/
noncomputable def M2M100Encoder_embedScale (enc : M2M100EncoderP) : ℝ :=
  if enc.scale_embedding then Real.sqrt (enc.d_model : ℝ) else 1

/-- `nn.Embedding` lookup applied to a rank-2 id grid: output
`[batch, seq, d]`, entry `(i, j, c)` is row `ids[i][j]` of the table.  Id
grids are rectangular (they come from an mlx array). -/
noncomputable def embedLookup (table : ℕ → ℝ) (d : ℕ) (ids : List (List ℕ)) :
    MXArray :=
  let s := (ids.getD 0 []).length
  ⟨[ids.length, s, d], fun idx =>
    let i := idx / (s * d)
    let j := (idx / d) % s
    let c := idx % d
    table ((ids.getD i []).getD j 0 * d + c)⟩

/-- The array form of `M2M100SinusoidalPositionalEmbedding_call` on a rank-2
id grid: shape `[batch, seq, 2 * (d / 2)]`, entry `(i, j, c)` is component `c`
of the sinusoidal encoding of the token id value `ids[i][j]` (same
`sinPEEntry` kernel as the list form). -/
noncomputable def posEmbMX (d : ℕ) (ids : List (List ℕ)) : MXArray :=
  let s := (ids.getD 0 []).length
  let w := 2 * (d / 2)
  ⟨[ids.length, s, w], fun idx =>
    let i := idx / (s * w)
    let j := (idx / w) % s
    let c := idx % w
    sinPEEntry d (((ids.getD i []).getD j 0 : ℕ) : ℝ) c⟩

/-- `transformers._prepare_4d_attention_mask(mask, torch.float16)` as used at
lines 313-315 (the source round-trips through a torch tensor and back to mlx):
expands a `[batch, src]` 0/1 padding mask to an additive `[batch, 1, src, src]`
mask holding `0` where the token is real and the `float16` minimum `-65504`
where it is padding (`tgt_len` defaults to `src_len`). -/
noncomputable def prepare4dAttentionMask (m : List (List ℕ)) : MXArray :=
  let s := (m.getD 0 []).length
  ⟨[m.length, 1, s, s], fun idx =>
    let bI := idx / (s * s)
    let j := idx % s
    if (m.getD bI []).getD j 0 = 0 then (-65504 : ℝ) else 0⟩

/-- `M2M100Encoder.__call__(input_ids, attention_mask)` (lines 294-322):
`input_ids.reshape(-1, input_shape[-1])` is the identity on the rank-2 id
grids used here; token embeddings are scaled and added to the positional
(here: token-value) encodings; the padding mask, when present, is expanded
once to the additive 4-d mask and shared by all layers; layers are folded in
order; final layer norm. -/
noncomputable def M2M100Encoder_call (enc : M2M100EncoderP)
    (input_ids : List (List ℕ)) (attention_mask : Option (List (List ℕ))) :
    Except PyError MXArray := do
  let inputs_embeds := mxScale (M2M100Encoder_embedScale enc)
    (embedLookup enc.embed_tokens enc.d_model input_ids)
  let embed_pos := posEmbMX enc.d_model input_ids
  let hidden0 ← mxAdd inputs_embeds embed_pos
  let mask4 := attention_mask.map prepare4dAttentionMask
  let hidden ← List.foldlM
    (fun h l => M2M100EncoderLayer_call l h mask4) hidden0 enc.layers
  layerNormE enc.d_model enc.layer_norm hidden

/-! ## Decoder -/

/-- Module state of `M2M100Decoder` after `__init__` (lines 325-338). -/
structure M2M100DecoderP where
  d_model : ℕ
  padding_idx : ℕ
  max_target_positions : ℕ
  scale_embedding : Bool
  embed_tokens : ℕ → ℝ
  layers : List M2M100DecoderLayerP
  layer_norm : LnParams

/-- The `size` attribute of an mlx array: an `int` *property* holding the
number of elements (not a method as on torch tensors). -/
def mlxArraySize (a : MXArray) : ℕ := a.shape.prod

/-- Applying Python call syntax to an `int`:
`TypeError: 'int' object is not callable`. -/
def pyCallInt {α : Type} (n : ℕ) : Except PyError α :=
  Except.error (PyError.typeErrorNotCallable n)

/-- `M2M100Decoder.__call__(input_ids, encoder_hidden_states, attention_mask,
encoder_attention_mask, past_key_values)` (lines 340-362).  Its first
statement is `input_shape = input_ids.size()` — a torch idiom; on the mlx
array passed here `size` is an `int` property, so the call raises `TypeError`
immediately.  Everything after line 342 is unreachable (the `view` calls, the
embedding/positional additions, the layer loop with its `layer_output[0]`
indexing, and the final layer norm are never executed). -/
noncomputable def M2M100Decoder_call (dec : M2M100DecoderP)
    (input_ids : MXArray) (encoder_hidden_states : Option MXArray)
    (attention_mask : Option MXArray) (encoder_attention_mask : Option MXArray)
    (past_key_values : Option (List (MXArray × MXArray))) :
    Except PyError MXArray := do
  let _input_shape ← (pyCallInt (mlxArraySize input_ids) : Except PyError (List ℕ))
  -- Unreachable continuation: the bind above always short-circuits with the
  -- `TypeError`, so the remainder of the body (the `view` reshapes — another
  -- torch-only method —, the embedding and positional additions, the layer
  -- fold reading `layer_output[0]`, and the final layer norm) never runs.
  Except.error (PyError.typeErrorNotCallable (mlxArraySize input_ids))

/-! ## The greedy decode loop of `test.py::forward_mlx` -/

/-- The loop state of `forward_mlx` (lines 82-107 of `test.py`): the decoder
input ids and the decoder input mask accumulated so far (mask entries are the
integers 0/1; the appended `mx.ones((bsz, 1))` entries are the value 1). -/
structure DecodeState where
  decoder_input_ids : List (List ℕ)
  decoder_input_mask : List (List ℕ)

/-- Index of the first occurrence of the maximum of a list
(`mx.argmax(logits, axis=-1)` semantics; `numpy`/`mlx` argmax returns the
first index among ties; defined to be 0 on the empty list). -/
noncomputable def argmaxIdx : List ℝ → ℕ
  | [] => 0
  | [_] => 0
  | x :: y :: xs =>
    let m := argmaxIdx (y :: xs)
    if x < (y :: xs).getD m 0 then m + 1 else 0

/-- `m` is the index of the first maximum of `l`. -/
def isFirstArgmax (l : List ℝ) (m : ℕ) : Prop :=
  m < l.length ∧ (∀ j, j < l.length → l.getD j 0 ≤ l.getD m 0) ∧
    ∀ j, j < m → l.getD j 0 < l.getD m 0

/-- One iteration of the `for _ in range(10)` loop of `forward_mlx`
(lines 89-107 of `test.py`).  `logitsFn ids mask` abstracts
`model.lm_head(model.decode(ids, mask, encoder_tokens, enc_mask, None))[:, -1, :]`
— the decoder and head live in `m2m_100_model.py`, which is not part of this
repository snapshot, so they enter as an opaque last-position logits oracle;
the loop body itself is translated literally: per batch row, append the argmax
token id (`mx.concatenate([ids, next_token.reshape(-1, 1)], axis=1)`) and
extend the mask by a 1 (`mx.concatenate([mask, mx.ones((bsz, 1))], axis=1)`,
with `bsz = len(sample_inputs)`). -/
noncomputable def greedyStep
    (logitsFn : List (List ℕ) → List (List ℕ) → List (List ℝ)) (bsz : ℕ)
    (s : DecodeState) : DecodeState :=
  let logits := logitsFn s.decoder_input_ids s.decoder_input_mask
  let next_token := logits.map argmaxIdx
  { decoder_input_ids :=
      List.zipWith (fun r tok => r ++ [tok]) s.decoder_input_ids next_token
    decoder_input_mask :=
      List.zipWith (fun r o => r ++ o) s.decoder_input_mask
        (List.replicate bsz [1]) }

/-- `n` iterations of the decode loop (`forward_mlx` runs `n = 10`). -/
noncomputable def forwardMlxLoop
    (logitsFn : List (List ℕ) → List (List ℕ) → List (List ℝ)) (bsz : ℕ)
    (s : DecodeState) : ℕ → DecodeState
  | 0 => s
  | n + 1 => greedyStep logitsFn bsz (forwardMlxLoop logitsFn bsz s n)

/-- The initial loop state of `forward_mlx` for its two-sentence batch:
`decoder_input_ids = [[eos_token_id, lang_code_id]] * 2`,
`decoder_input_mask = [[1, 1]] * 2`. -/
def forwardMlxInit (eos lang : ℕ) : DecodeState :=
  { decoder_input_ids := [[eos, lang], [eos, lang]]
    decoder_input_mask := [[1, 1], [1, 1]] }

/-! ## Concrete fixtures used by witnesses and counterexamples -/

/-- All-zero linear parameters (the concrete values are irrelevant to the
shape/error behaviour exercised below). -/
noncomputable def zeroLP : LinearParams := ⟨fun _ => 0, fun _ => 0⟩

/-- All-zero layer-norm parameters. -/
noncomputable def zeroLN : LnParams := ⟨fun _ => 0, fun _ => 0⟩

/-- A concrete array of the given shape filled with zeros. -/
noncomputable def zeros (s : List ℕ) : MXArray := ⟨s, fun _ => 0⟩

/-- Encoder-style attention (`is_decoder = False`), `embed_dim = 2`,
`num_heads = 1`. -/
noncomputable def fixAttnEnc : M2M100AttentionP :=
  M2M100Attention_init 2 1 0 false true false zeroLP zeroLP zeroLP zeroLP

/-- Decoder-style self-attention (`is_decoder = True, is_causal = True`),
`embed_dim = 1`, `num_heads = 1`. -/
noncomputable def fixAttnDec : M2M100AttentionP :=
  M2M100Attention_init 1 1 0 true true true zeroLP zeroLP zeroLP zeroLP

/-- A tiny config for the concrete decoder layer: `d_model = 1`, one head per
attention, `ffn_dim = 1`, ReLU activation. -/
def fixConfig : ModelArgs :=
  { vocab_size := 4
    max_position_embeddings := 16
    encoder_layers := 1
    encoder_ffn_dim := 1
    encoder_attention_heads := 1
    decoder_layers := 1
    decoder_ffn_dim := 1
    decoder_attention_heads := 1
    encoder_layerdrop := 0
    decoder_layerdrop := 0
    use_cache := true
    is_encoder_decoder := true
    activation_function := "relu"
    d_model := 1
    dropout := 0
    attention_dropout := 0
    activation_dropout := 0
    init_std := 1
    decoder_start_token_id := 2
    scale_embedding := true
    pad_token_id := 1
    bos_token_id := 0
    eos_token_id := 2
    num_hidden_layers := 1 }

/-- A concrete decoder layer built by `M2M100DecoderLayer_init` on
`fixConfig`. -/
noncomputable def fixDecLayer : M2M100DecoderLayerP :=
  M2M100DecoderLayer_init fixConfig zeroLP zeroLP zeroLP zeroLP zeroLN
    zeroLP zeroLP zeroLP zeroLP zeroLN zeroLP zeroLP zeroLN

/-- A concrete last-position logits oracle for the decode-loop witness: one
vocabulary entry per row, one logits row per batch row. -/
noncomputable def C7logits : List (List ℕ) → List (List ℕ) → List (List ℝ) :=
  fun ids _ => ids.map (fun _ => [(1 : ℝ)])

/-! # Theorems

Helper lemmas about the embedded operations, then one theorem (plus witness or
counterexample where required) per claim. -/

theorem exceptBind_ok {α β : Type} (a : α) (f : α → Except PyError β) :
    (Except.ok a >>= f : Except PyError β) = f a := rfl

theorem exceptBind_err {α β : Type} (e : PyError) (f : α → Except PyError β) :
    (Except.error e >>= f : Except PyError β) = Except.error e := rfl

theorem prodL3 (a b c : ℕ) : ([a, b, c] : List ℕ).prod = a * (b * c) := by
  simp [mul_assoc]

theorem prodL4 (a b c d : ℕ) :
    ([a, b, c, d] : List ℕ).prod = a * (b * (c * d)) := by
  simp [mul_assoc]

theorem mxReshapeE_ok (x : MXArray) (ns : List ℕ)
    (h : ns.prod = x.shape.prod) :
    mxReshapeE x ns = Except.ok ⟨ns, x.data⟩ := by
  simp [mxReshapeE, h]

theorem linearE_ok (out_features : ℕ) (lp : LinearParams) (x : MXArray)
    (a b c : ℕ) (hx : x.shape = [a, b, c]) :
    ∃ dd, linearE out_features c lp x = Except.ok ⟨[a, b, out_features], dd⟩ := by
  have hcond : x.shape.getLast? = some c := by rw [hx]; rfl
  unfold linearE
  rw [if_pos hcond, hx]
  exact ⟨_, rfl⟩

theorem mxTranspose4_0213_ok (x : MXArray) (a b c d : ℕ)
    (hx : x.shape = [a, b, c, d]) :
    ∃ dd, mxTranspose4_0213 x = Except.ok ⟨[a, c, b, d], dd⟩ := by
  simp only [mxTranspose4_0213, hx]
  exact ⟨_, rfl⟩

theorem mxTranspose3_021_ok (x : MXArray) (a b c : ℕ)
    (hx : x.shape = [a, b, c]) :
    ∃ dd, mxTranspose3_021 x = Except.ok ⟨[a, c, b], dd⟩ := by
  simp only [mxTranspose3_021, hx]
  exact ⟨_, rfl⟩

theorem mxMatmul3_ok (x y : MXArray) (bB m k n : ℕ)
    (hx : x.shape = [bB, m, k]) (hy : y.shape = [bB, k, n]) :
    ∃ dd, mxMatmul3 x y = Except.ok ⟨[bB, m, n], dd⟩ := by
  simp only [mxMatmul3, hx, hy, and_self, if_true]
  exact ⟨_, rfl⟩

theorem mxConcat4Axis2_ok (x y : MXArray) (a b c1 c2 d : ℕ)
    (hx : x.shape = [a, b, c1, d]) (hy : y.shape = [a, b, c2, d]) :
    ∃ dd, mxConcat4Axis2 x y = Except.ok ⟨[a, b, c1 + c2, d], dd⟩ := by
  simp only [mxConcat4Axis2, hx, hy, and_self, if_true]
  exact ⟨_, rfl⟩

theorem mxAddBroadcast4_ok (x y : MXArray) (a b c d : ℕ)
    (hx : x.shape = [a, b, c, d]) (hy : y.shape = [a, 1, c, d]) :
    ∃ dd, mxAddBroadcast4 x y = Except.ok ⟨[a, b, c, d], dd⟩ := by
  simp [mxAddBroadcast4, hx, hy]

theorem mxAdd_ok (x y : MXArray) (s : List ℕ)
    (hx : x.shape = s) (hy : y.shape = s) :
    ∃ dd, mxAdd x y = Except.ok ⟨s, dd⟩ := by
  unfold mxAdd
  rw [hx, hy, if_pos rfl]
  exact ⟨_, rfl⟩

theorem layerNormE_ok (dims : ℕ) (ln : LnParams) (x : MXArray) (s : List ℕ)
    (hx : x.shape = s) (hlast : s.getLast? = some dims) :
    ∃ dd, layerNormE dims ln x = Except.ok ⟨s, dd⟩ := by
  have hcond : x.shape.getLast? = some dims := by rw [hx]; exact hlast
  unfold layerNormE
  rw [if_pos hcond, hx]
  exact ⟨_, rfl⟩

theorem applyAct_relu_ok (x : MXArray) :
    ∃ dd, applyAct ActKind.relu x = Except.ok ⟨x.shape, dd⟩ :=
  ⟨_, rfl⟩

theorem mxSoftmaxLast_shape (x : MXArray) : (mxSoftmaxLast x).shape = x.shape :=
  rfl

theorem M2M100Attention_shape_some_ok (p : M2M100AttentionP) (x : MXArray)
    (b t : ℕ) (hx : x.shape = [b, t, p.embed_dim])
    (hdim : p.embed_dim = p.num_heads * p.head_dim) :
    ∃ dd, M2M100Attention_shape p x (some t) b
      = Except.ok ⟨[b, p.num_heads, t, p.head_dim], dd⟩ := by
  have hre : mxReshapeE x [b, t, p.num_heads, p.head_dim]
      = Except.ok ⟨[b, t, p.num_heads, p.head_dim], x.data⟩ :=
    mxReshapeE_ok x _ (by rw [hx, prodL4, prodL3, hdim])
  obtain ⟨dd, htr⟩ := mxTranspose4_0213_ok
    ⟨[b, t, p.num_heads, p.head_dim], x.data⟩ b t p.num_heads p.head_dim rfl
  exact ⟨dd, by simp only [M2M100Attention_shape, hre, exceptBind_ok, htr]⟩

theorem M2M100Attention_shape_none_ok (p : M2M100AttentionP) (x : MXArray)
    (b t : ℕ) (hx : x.shape = [b, t, p.embed_dim])
    (hdim : p.embed_dim = p.num_heads * p.head_dim)
    (hb : 0 < b) (hh : 0 < p.num_heads) (hhd : 0 < p.head_dim) :
    ∃ dd, M2M100Attention_shape p x none b
      = Except.ok ⟨[b, p.num_heads, t, p.head_dim], dd⟩ := by
  have hkpos : 0 < b * p.num_heads * p.head_dim := by positivity
  have htot : x.shape.prod = b * p.num_heads * p.head_dim * t := by
    rw [hx, prodL3, hdim]; ring
  have hmod : x.shape.prod % (b * p.num_heads * p.head_dim) = 0 := by
    rw [htot]; exact Nat.mul_mod_right _ _
  have hdiv : x.shape.prod / (b * p.num_heads * p.head_dim) = t := by
    rw [htot]; exact Nat.mul_div_cancel_left _ hkpos
  obtain ⟨dd, htr⟩ := mxTranspose4_0213_ok
    ⟨[b, t, p.num_heads, p.head_dim], x.data⟩ b t p.num_heads p.head_dim rfl
  refine ⟨dd, ?_⟩
  simp only [M2M100Attention_shape]
  rw [if_pos ⟨hkpos.ne', hmod⟩, hdiv]
  simp only [exceptBind_ok, htr]

theorem M2M100Attention_kv_self_ok (p : M2M100AttentionP) (hs : MXArray)
    (b t : ℕ) (hx : hs.shape = [b, t, p.embed_dim])
    (hdim : p.embed_dim = p.num_heads * p.head_dim)
    (hb : 0 < b) (hh : 0 < p.num_heads) (hhd : 0 < p.head_dim) :
    ∃ dk dv, M2M100Attention_kv p hs none none b
      = Except.ok (⟨[b, p.num_heads, t, p.head_dim], dk⟩,
                   ⟨[b, p.num_heads, t, p.head_dim], dv⟩) := by
  obtain ⟨dkp, hkp⟩ := linearE_ok p.embed_dim p.k_proj hs b t p.embed_dim hx
  obtain ⟨dk, hks⟩ := M2M100Attention_shape_none_ok p
    ⟨[b, t, p.embed_dim], dkp⟩ b t rfl hdim hb hh hhd
  obtain ⟨dvp, hvp⟩ := linearE_ok p.embed_dim p.v_proj hs b t p.embed_dim hx
  obtain ⟨dv, hvs⟩ := M2M100Attention_shape_none_ok p
    ⟨[b, t, p.embed_dim], dvp⟩ b t rfl hdim hb hh hhd
  exact ⟨dk, dv, by
    simp only [M2M100Attention_kv, hkp, exceptBind_ok, hks, hvp, hvs]⟩

theorem M2M100Attention_kv_cross_ok (p : M2M100AttentionP) (hs kvs : MXArray)
    (b s : ℕ) (hkvs : kvs.shape = [b, s, p.embed_dim])
    (hdim : p.embed_dim = p.num_heads * p.head_dim)
    (hb : 0 < b) (hh : 0 < p.num_heads) (hhd : 0 < p.head_dim) :
    ∃ dk dv, M2M100Attention_kv p hs (some kvs) none b
      = Except.ok (⟨[b, p.num_heads, s, p.head_dim], dk⟩,
                   ⟨[b, p.num_heads, s, p.head_dim], dv⟩) := by
  obtain ⟨dkp, hkp⟩ := linearE_ok p.embed_dim p.k_proj kvs b s p.embed_dim hkvs
  obtain ⟨dk, hks⟩ := M2M100Attention_shape_none_ok p
    ⟨[b, s, p.embed_dim], dkp⟩ b s rfl hdim hb hh hhd
  obtain ⟨dvp, hvp⟩ := linearE_ok p.embed_dim p.v_proj kvs b s p.embed_dim hkvs
  obtain ⟨dv, hvs⟩ := M2M100Attention_shape_none_ok p
    ⟨[b, s, p.embed_dim], dvp⟩ b s rfl hdim hb hh hhd
  exact ⟨dk, dv, by
    simp only [M2M100Attention_kv, hkp, exceptBind_ok, hks, hvp, hvs]⟩

theorem M2M100Attention_core_none (p : M2M100AttentionP) (b t : ℕ)
    (q ks vs : MXArray)
    (hq : q.shape = [b, t, p.embed_dim])
    (hk : ks.shape = [b, p.num_heads, t, p.head_dim])
    (hv : vs.shape = [b, p.num_heads, t, p.head_dim])
    (hdim : p.embed_dim = p.num_heads * p.head_dim) :
    M2M100Attention_core p b t q ks vs none
      = Except.error PyError.noneShapeAccess := by
  obtain ⟨dq, hsf⟩ := M2M100Attention_shape_some_ok p q b t hq hdim
  have hprojprod : ([b * p.num_heads, t, p.head_dim] : List ℕ).prod
      = ([b, p.num_heads, t, p.head_dim] : List ℕ).prod := by
    rw [prodL3, prodL4]; ring
  have hq2 := mxReshapeE_ok ⟨[b, p.num_heads, t, p.head_dim], dq⟩
    [b * p.num_heads, t, p.head_dim] hprojprod
  have hk2 := mxReshapeE_ok ks [b * p.num_heads, t, p.head_dim]
    (by rw [hk]; exact hprojprod)
  have hv2 := mxReshapeE_ok vs [b * p.num_heads, t, p.head_dim]
    (by rw [hv]; exact hprojprod)
  obtain ⟨dT, hT⟩ := mxTranspose3_021_ok
    ⟨[b * p.num_heads, t, p.head_dim], ks.data⟩ (b * p.num_heads) t p.head_dim rfl
  obtain ⟨dW, hW⟩ := mxMatmul3_ok
    ⟨[b * p.num_heads, t, p.head_dim], dq⟩
    ⟨[b * p.num_heads, p.head_dim, t], dT⟩
    (b * p.num_heads) t p.head_dim t rfl rfl
  simp only [M2M100Attention_core, hsf, exceptBind_ok, hq2, hk2, hv2, hT, hW,
    List.getD_cons_succ, List.getD_cons_zero]
  rw [if_neg (by simp : ¬ (([b * p.num_heads, t, t] : List ℕ)
    ≠ [b * p.num_heads, t, t]))]

theorem M2M100Attention_core_maskErr (p : M2M100AttentionP) (b t : ℕ)
    (q ks vs m : MXArray)
    (hq : q.shape = [b, t, p.embed_dim])
    (hk : ks.shape = [b, p.num_heads, t, p.head_dim])
    (hv : vs.shape = [b, p.num_heads, t, p.head_dim])
    (hdim : p.embed_dim = p.num_heads * p.head_dim)
    (hm : m.shape ≠ [b, 1, t, t]) :
    M2M100Attention_core p b t q ks vs (some m)
      = Except.error (PyError.attnMaskSizeError [b, 1, t, t] m.shape) := by
  obtain ⟨dq, hsf⟩ := M2M100Attention_shape_some_ok p q b t hq hdim
  have hprojprod : ([b * p.num_heads, t, p.head_dim] : List ℕ).prod
      = ([b, p.num_heads, t, p.head_dim] : List ℕ).prod := by
    rw [prodL3, prodL4]; ring
  have hq2 := mxReshapeE_ok ⟨[b, p.num_heads, t, p.head_dim], dq⟩
    [b * p.num_heads, t, p.head_dim] hprojprod
  have hk2 := mxReshapeE_ok ks [b * p.num_heads, t, p.head_dim]
    (by rw [hk]; exact hprojprod)
  have hv2 := mxReshapeE_ok vs [b * p.num_heads, t, p.head_dim]
    (by rw [hv]; exact hprojprod)
  obtain ⟨dT, hT⟩ := mxTranspose3_021_ok
    ⟨[b * p.num_heads, t, p.head_dim], ks.data⟩ (b * p.num_heads) t p.head_dim rfl
  obtain ⟨dW, hW⟩ := mxMatmul3_ok
    ⟨[b * p.num_heads, t, p.head_dim], dq⟩
    ⟨[b * p.num_heads, p.head_dim, t], dT⟩
    (b * p.num_heads) t p.head_dim t rfl rfl
  simp only [M2M100Attention_core, hsf, exceptBind_ok, hq2, hk2, hv2, hT, hW,
    List.getD_cons_succ, List.getD_cons_zero]
  rw [if_neg (by simp : ¬ (([b * p.num_heads, t, t] : List ℕ)
    ≠ [b * p.num_heads, t, t]))]
  rw [if_pos hm]

theorem M2M100Attention_core_someOk (p : M2M100AttentionP) (b t : ℕ)
    (q ks vs m : MXArray)
    (hq : q.shape = [b, t, p.embed_dim])
    (hk : ks.shape = [b, p.num_heads, t, p.head_dim])
    (hv : vs.shape = [b, p.num_heads, t, p.head_dim])
    (hdim : p.embed_dim = p.num_heads * p.head_dim)
    (hm : m.shape = [b, 1, t, t]) :
    ∃ out, M2M100Attention_core p b t q ks vs (some m) = Except.ok out
      ∧ out.shape = [b, t, p.embed_dim] := by
  obtain ⟨dq, hsf⟩ := M2M100Attention_shape_some_ok p q b t hq hdim
  have hprojprod : ([b * p.num_heads, t, p.head_dim] : List ℕ).prod
      = ([b, p.num_heads, t, p.head_dim] : List ℕ).prod := by
    rw [prodL3, prodL4]; ring
  have hq2 := mxReshapeE_ok ⟨[b, p.num_heads, t, p.head_dim], dq⟩
    [b * p.num_heads, t, p.head_dim] hprojprod
  have hk2 := mxReshapeE_ok ks [b * p.num_heads, t, p.head_dim]
    (by rw [hk]; exact hprojprod)
  have hv2 := mxReshapeE_ok vs [b * p.num_heads, t, p.head_dim]
    (by rw [hv]; exact hprojprod)
  obtain ⟨dT, hT⟩ := mxTranspose3_021_ok
    ⟨[b * p.num_heads, t, p.head_dim], ks.data⟩ (b * p.num_heads) t p.head_dim rfl
  obtain ⟨dW, hW⟩ := mxMatmul3_ok
    ⟨[b * p.num_heads, t, p.head_dim], dq⟩
    ⟨[b * p.num_heads, p.head_dim, t], dT⟩
    (b * p.num_heads) t p.head_dim t rfl rfl
  have hwprod : ([b, p.num_heads, t, t] : List ℕ).prod
      = ([b * p.num_heads, t, t] : List ℕ).prod := by
    rw [prodL3, prodL4]; ring
  have haw := mxReshapeE_ok ⟨[b * p.num_heads, t, t], dW⟩
    [b, p.num_heads, t, t] hwprod
  obtain ⟨dA, hA⟩ := mxAddBroadcast4_ok
    ⟨[b, p.num_heads, t, t], dW⟩ m b p.num_heads t t rfl hm
  have haw3 := mxReshapeE_ok ⟨[b, p.num_heads, t, t], dA⟩
    [b * p.num_heads, t, t] hwprod.symm
  obtain ⟨dO, hO⟩ := mxMatmul3_ok
    (mxSoftmaxLast ⟨[b * p.num_heads, t, t], dA⟩)
    ⟨[b * p.num_heads, t, p.head_dim], vs.data⟩
    (b * p.num_heads) t t p.head_dim rfl rfl
  have hao := mxReshapeE_ok ⟨[b * p.num_heads, t, p.head_dim], dO⟩
    [b, p.num_heads, t, p.head_dim] hprojprod.symm
  obtain ⟨dK, hK⟩ := mxTranspose4_0213_ok
    ⟨[b, p.num_heads, t, p.head_dim], dO⟩ b p.num_heads t p.head_dim rfl
  have hfinprod : ([b, t, p.embed_dim] : List ℕ).prod
      = ([b, t, p.num_heads, p.head_dim] : List ℕ).prod := by
    rw [prodL3, prodL4, hdim]
  have hao3 := mxReshapeE_ok ⟨[b, t, p.num_heads, p.head_dim], dK⟩
    [b, t, p.embed_dim] hfinprod
  obtain ⟨dF, hF⟩ := linearE_ok p.embed_dim p.out_proj
    ⟨[b, t, p.embed_dim], dK⟩ b t p.embed_dim rfl
  refine ⟨⟨[b, t, p.embed_dim], dF⟩, ?_, rfl⟩
  simp only [M2M100Attention_core, hsf, exceptBind_ok, hq2, hk2, hv2, hT, hW,
    List.getD_cons_succ, List.getD_cons_zero]
  rw [if_neg (by simp : ¬ (([b * p.num_heads, t, t] : List ℕ)
    ≠ [b * p.num_heads, t, t]))]
  rw [if_neg (by simp [hm] : ¬ (m.shape ≠ [b, 1, t, t]))]
  simp only [exceptBind_ok, haw, hA, haw3, hO, hao, hK, hao3, hF]

theorem M2M100Attention_selfNoCache_noneMask (p : M2M100AttentionP)
    (hs : MXArray) (b t : ℕ) (hshape : hs.shape = [b, t, p.embed_dim])
    (hdim : p.embed_dim = p.num_heads * p.head_dim)
    (hb : 0 < b) (hh : 0 < p.num_heads) (hhd : 0 < p.head_dim) :
    M2M100Attention_call p hs none none none
      = Except.error PyError.noneShapeAccess := by
  obtain ⟨dqp, hqp⟩ := linearE_ok p.embed_dim p.q_proj hs b t p.embed_dim hshape
  obtain ⟨dk, dv, hkv⟩ := M2M100Attention_kv_self_ok p hs b t hshape hdim hb hh hhd
  have hcore := M2M100Attention_core_none p b t
    ⟨[b, t, p.embed_dim], dqp⟩ ⟨[b, p.num_heads, t, p.head_dim], dk⟩
    ⟨[b, p.num_heads, t, p.head_dim], dv⟩ rfl rfl rfl hdim
  simp only [M2M100Attention_call, hshape, hqp, exceptBind_ok, hkv, hcore]

theorem M2M100Attention_selfNoCache_maskErr (p : M2M100AttentionP)
    (hs m : MXArray) (b t : ℕ) (hshape : hs.shape = [b, t, p.embed_dim])
    (hdim : p.embed_dim = p.num_heads * p.head_dim)
    (hb : 0 < b) (hh : 0 < p.num_heads) (hhd : 0 < p.head_dim)
    (hm : m.shape ≠ [b, 1, t, t]) :
    M2M100Attention_call p hs none none (some m)
      = Except.error (PyError.attnMaskSizeError [b, 1, t, t] m.shape) := by
  obtain ⟨dqp, hqp⟩ := linearE_ok p.embed_dim p.q_proj hs b t p.embed_dim hshape
  obtain ⟨dk, dv, hkv⟩ := M2M100Attention_kv_self_ok p hs b t hshape hdim hb hh hhd
  have hcore := M2M100Attention_core_maskErr p b t
    ⟨[b, t, p.embed_dim], dqp⟩ ⟨[b, p.num_heads, t, p.head_dim], dk⟩
    ⟨[b, p.num_heads, t, p.head_dim], dv⟩ m rfl rfl rfl hdim hm
  simp only [M2M100Attention_call, hshape, hqp, exceptBind_ok, hkv, hcore]

theorem M2M100Attention_selfNoCache_ok (p : M2M100AttentionP)
    (hs m : MXArray) (b t : ℕ) (hshape : hs.shape = [b, t, p.embed_dim])
    (hdim : p.embed_dim = p.num_heads * p.head_dim)
    (hb : 0 < b) (hh : 0 < p.num_heads) (hhd : 0 < p.head_dim)
    (hm : m.shape = [b, 1, t, t]) :
    ∃ out, M2M100Attention_call p hs none none (some m) = Except.ok out
      ∧ out.shape = [b, t, p.embed_dim] := by
  obtain ⟨dqp, hqp⟩ := linearE_ok p.embed_dim p.q_proj hs b t p.embed_dim hshape
  obtain ⟨dk, dv, hkv⟩ := M2M100Attention_kv_self_ok p hs b t hshape hdim hb hh hhd
  obtain ⟨out, hcore, hout⟩ := M2M100Attention_core_someOk p b t
    ⟨[b, t, p.embed_dim], dqp⟩ ⟨[b, p.num_heads, t, p.head_dim], dk⟩
    ⟨[b, p.num_heads, t, p.head_dim], dv⟩ m rfl rfl rfl hdim hm
  refine ⟨out, ?_, hout⟩
  simp only [M2M100Attention_call, hshape, hqp, exceptBind_ok, hkv, hcore]

theorem M2M100Attention_crossNoCache_ok (p : M2M100AttentionP)
    (hs kvs m : MXArray) (b t : ℕ)
    (hshape : hs.shape = [b, t, p.embed_dim])
    (hkvs : kvs.shape = [b, t, p.embed_dim])
    (hdim : p.embed_dim = p.num_heads * p.head_dim)
    (hb : 0 < b) (hh : 0 < p.num_heads) (hhd : 0 < p.head_dim)
    (hm : m.shape = [b, 1, t, t]) :
    ∃ out, M2M100Attention_call p hs (some kvs) none (some m) = Except.ok out
      ∧ out.shape = [b, t, p.embed_dim] := by
  obtain ⟨dqp, hqp⟩ := linearE_ok p.embed_dim p.q_proj hs b t p.embed_dim hshape
  obtain ⟨dk, dv, hkv⟩ := M2M100Attention_kv_cross_ok p hs kvs b t hkvs hdim hb hh hhd
  obtain ⟨out, hcore, hout⟩ := M2M100Attention_core_someOk p b t
    ⟨[b, t, p.embed_dim], dqp⟩ ⟨[b, p.num_heads, t, p.head_dim], dk⟩
    ⟨[b, p.num_heads, t, p.head_dim], dv⟩ m rfl rfl rfl hdim hm
  refine ⟨out, ?_, hout⟩
  simp only [M2M100Attention_call, hshape, hqp, exceptBind_ok, hkv, hcore]

theorem sinPESigma_four_zero : sinPESigma 4 0 = 1 := by
  have h4 : (((4 : ℕ) / 2 - 1 : ℕ) : ℝ) = 1 := by norm_num
  unfold sinPESigma
  rw [h4, Real.log_one]
  norm_num [Real.exp_zero]

theorem sinPEEntry_four_zero : sinPEEntry 4 0 0 = 0 := by
  unfold sinPEEntry
  norm_num

theorem sinPEEntry_four_one_pos : 0 < sinPEEntry 4 1 0 := by
  unfold sinPEEntry sinPEScale
  rw [if_pos (by norm_num)]
  rw [sinPESigma_four_zero]
  have h1 : (0 : ℝ) < Real.sin (1 * 1) := by
    rw [one_mul]
    exact Real.sin_pos_of_pos_of_lt_pi one_pos
      (by linarith [Real.pi_gt_three])
  exact mul_pos (Real.sqrt_pos.mpr (by norm_num)) h1

theorem sinPEVec_zero_ne_one : sinPEVec 4 0 ≠ sinPEVec 4 1 := by
  intro h
  have e0 : sinPEVec 4 0
      = [sinPEEntry 4 0 0, sinPEEntry 4 0 1, sinPEEntry 4 0 2, sinPEEntry 4 0 3] :=
    rfl
  have e1 : sinPEVec 4 1
      = [sinPEEntry 4 1 0, sinPEEntry 4 1 1, sinPEEntry 4 1 2, sinPEEntry 4 1 3] :=
    rfl
  rw [e0, e1] at h
  have h0 : sinPEEntry 4 0 0 = sinPEEntry 4 1 0 :=
    (List.cons.injEq _ _ _ _).mp h |>.1
  rw [sinPEEntry_four_zero] at h0
  exact absurd h0.symm (ne_of_gt sinPEEntry_four_one_pos)

/-- Claim C1: refuted on the code.  The positional-embedding call is *not* a
pure function of the input's shape and the offset: for the same shape
`[1, 1]`, the same offset `0`, and `embedding_dim = 4`, the token grids
`[[0]]` and `[[1]]` produce different outputs, because the source feeds the
token-id values themselves into the sinusoidal encoder. -/
theorem C1_positional_embedding_depends_on_token_values :
    M2M100SinusoidalPositionalEmbedding_call 4 [[0]] 0
      ≠ M2M100SinusoidalPositionalEmbedding_call 4 [[1]] 0 := by
  intro h
  apply sinPEVec_zero_ne_one
  have h2 : ([[sinPEVec 4 ((0 : ℕ) : ℝ)]] : List (List (List ℝ)))
      = [[sinPEVec 4 ((1 : ℕ) : ℝ)]] := h
  simpa using h2

/-- Claim C4, counterexample: with `embedding_dim = 4`, the embedding of the
length-1 sequence `[[0]]` at offset `1` differs from the embedding of the
length-2 sequence `[[1, 1]]` at offset `0` sliced to positions `[1..2)` —
the code's output depends on the token values, so the property as stated
(for arbitrary sequences of the matching lengths) fails. -/
theorem C4_offset_slice_counterexample :
    ¬ (M2M100SinusoidalPositionalEmbedding_call 4 [[0]] 1
        = (M2M100SinusoidalPositionalEmbedding_call 4 [[1, 1]] 0).map
            (fun r => r.drop 1)) := by
  intro h
  apply sinPEVec_zero_ne_one
  have h2 : ([[sinPEVec 4 ((0 : ℕ) : ℝ)]] : List (List (List ℝ)))
      = [[sinPEVec 4 ((1 : ℕ) : ℝ)]] := h
  simpa using h2

/-- Claim C4, amended: when the length-`n` input is the token suffix of the
length-`(k+n)` input — the incremental-decoding situation the spec describes —
the equality does hold, because the embedding is an elementwise function of
the token values (and ignores the offset argument entirely), so it commutes
with slicing. -/
theorem C4_offset_slice_on_suffix (d k : ℕ) (ids : List (List ℕ)) :
    M2M100SinusoidalPositionalEmbedding_call d (ids.map (fun r => r.drop k)) k
      = (M2M100SinusoidalPositionalEmbedding_call d ids 0).map
          (fun r => r.drop k) := by
  unfold M2M100SinusoidalPositionalEmbedding_call
  rw [List.map_map, List.map_map]
  congr 1
  funext r
  simp only [Function.comp]
  exact List.map_drop _ r k

/-- Claim C2: refuted on the code — a self-attention call with an existing
(key, value) cache crashes.  With `embed_dim = num_heads = head_dim = 1`, a
one-position input and a one-position cache, the concatenated key states have
shape `[1, 1, 2, 1]` but line 133 reshapes them to
`proj_shape = (bsz * num_heads, tgt_len, head_dim) = (1, 1, 1)`, which has a
different element count, so mlx raises.  (In addition the call never returns
a cache to feed into a next step — see C3.) -/
theorem C2_cached_self_attention_crashes :
    M2M100Attention_call fixAttnDec (zeros [1, 1, 1]) none
        (some (zeros [1, 1, 1, 1], zeros [1, 1, 1, 1])) none
      = Except.error (PyError.reshapeError [1, 1, 2, 1] [1, 1, 1]) := rfl

/-- Claim C9: refuted on the code — a self-attention call with
`attention_mask = None` does not succeed: the debug statement
`print("attn_weights", attention_mask.shape)` at line 146 raises
`AttributeError` before the output is computed, on every mask-less call. -/
theorem C9_none_mask_raises :
    M2M100Attention_call fixAttnEnc (zeros [1, 1, 2]) none none none
      = Except.error PyError.noneShapeAccess := rfl

/-- Helper for C3: the concrete decoder layer call succeeds (so the value it
returns can be inspected). -/
theorem fixDecLayer_call_ok :
    ∃ out, M2M100DecoderLayer_call fixDecLayer (zeros [1, 1, 1])
        (some (zeros [1, 1, 1])) (some (zeros [1, 1, 1, 1]))
        (some (zeros [1, 1, 1, 1])) = Except.ok out :=
  ⟨_, rfl⟩

/-- Claim C3: refuted on the code.  For a decoder-constructed attention module
(`is_decoder = True`) the call returns a bare array and never the
`(output, (key, value))` pair, and the decoder-layer call likewise returns
only the hidden-states array (its own caller `M2M100Decoder.__call__` indexes
`layer_output[0]` as if a tuple came back). -/
theorem C3_no_cache_in_return_value :
    ((∃ a, M2M100Attention_ret fixAttnDec (zeros [1, 1, 1]) none none
        (some (zeros [1, 1, 1, 1])) = Except.ok (PyRet.arr a))
      ∧ ∀ o kv, M2M100Attention_ret fixAttnDec (zeros [1, 1, 1]) none none
        (some (zeros [1, 1, 1, 1])) ≠ Except.ok (PyRet.withCache o kv))
    ∧ ((∃ a, M2M100DecoderLayer_ret fixDecLayer (zeros [1, 1, 1])
        (some (zeros [1, 1, 1])) (some (zeros [1, 1, 1, 1]))
        (some (zeros [1, 1, 1, 1])) = Except.ok (PyRet.arr a))
      ∧ ∀ o kv, M2M100DecoderLayer_ret fixDecLayer (zeros [1, 1, 1])
        (some (zeros [1, 1, 1])) (some (zeros [1, 1, 1, 1]))
        (some (zeros [1, 1, 1, 1])) ≠ Except.ok (PyRet.withCache o kv)) := by
  obtain ⟨outA, hokA, _⟩ := M2M100Attention_selfNoCache_ok fixAttnDec
    (zeros [1, 1, 1]) (zeros [1, 1, 1, 1]) 1 1 rfl rfl
    (by decide) (by decide) (by decide) rfl
  obtain ⟨outL, hokL⟩ := fixDecLayer_call_ok
  constructor
  · constructor
    · exact ⟨outA, by simp only [M2M100Attention_ret, hokA, Except.map]⟩
    · intro o kv he
      rw [M2M100Attention_ret, hokA] at he
      simp [Except.map] at he
  · constructor
    · exact ⟨outL, by simp only [M2M100DecoderLayer_ret, hokL, Except.map]⟩
    · intro o kv he
      rw [M2M100DecoderLayer_ret, hokL] at he
      simp [Except.map] at he

/-- Helper for C5: a cross-attention call without a cache, whose key/value
source has the same sequence length as the queries, raises the mask-shape
`ValueError` when the mask shape is wrong (same execution as the
self-attention case: the key/value states end up `[b, heads, t, head_dim]`
and the core proceeds identically). -/
theorem M2M100Attention_crossNoCache_maskErr (p : M2M100AttentionP)
    (hs kvs m : MXArray) (b t : ℕ)
    (hshape : hs.shape = [b, t, p.embed_dim])
    (hkvs : kvs.shape = [b, t, p.embed_dim])
    (hdim : p.embed_dim = p.num_heads * p.head_dim)
    (hb : 0 < b) (hh : 0 < p.num_heads) (hhd : 0 < p.head_dim)
    (hm : m.shape ≠ [b, 1, t, t]) :
    M2M100Attention_call p hs (some kvs) none (some m)
      = Except.error (PyError.attnMaskSizeError [b, 1, t, t] m.shape) := by
  obtain ⟨dqp, hqp⟩ := linearE_ok p.embed_dim p.q_proj hs b t p.embed_dim hshape
  obtain ⟨dk, dv, hkv⟩ := M2M100Attention_kv_cross_ok p hs kvs b t hkvs hdim
    hb hh hhd
  have hcore := M2M100Attention_core_maskErr p b t
    ⟨[b, t, p.embed_dim], dqp⟩ ⟨[b, p.num_heads, t, p.head_dim], dk⟩
    ⟨[b, p.num_heads, t, p.head_dim], dv⟩ m rfl rfl rfl hdim hm
  simp only [M2M100Attention_call, hshape, hqp, exceptBind_ok, hkv, hcore]

/-- Claim C5, counterexample: the claim as stated quantifies over *every*
attention call, but a cross-attention call whose key/value source length
differs from `tgt_len` never reaches either shape check.  With
`embed_dim = num_heads = head_dim = 1`, queries of shape `[1, 1, 1]` and a
key/value source of shape `[1, 2, 1]` (so the expected mask shape is
`[1, 1, 1, 2]`), a mask of shape `[9, 9, 9, 9]` — which differs from the
expected shape — does not produce the mask `ShapeMismatch`: the call dies
first in the line-133 reshape of the `[1, 1, 2, 1]` key states to
`proj_shape = (1, 1, 1)`, a plain reshape `ValueError`. -/
theorem C5_shape_check_counterexample :
    (zeros [9, 9, 9, 9]).shape ≠ [1, 1, 1, 2]
    ∧ M2M100Attention_call fixAttnDec (zeros [1, 1, 1])
        (some (zeros [1, 2, 1])) none (some (zeros [9, 9, 9, 9]))
      = Except.error (PyError.reshapeError [1, 1, 2, 1] [1, 1, 1])
    ∧ ∀ e a, M2M100Attention_call fixAttnDec (zeros [1, 1, 1])
        (some (zeros [1, 2, 1])) none (some (zeros [9, 9, 9, 9]))
      ≠ Except.error (PyError.attnMaskSizeError e a) := by
  refine ⟨by decide, rfl, fun e a h => ?_⟩
  have h2 : (Except.error (PyError.reshapeError [1, 1, 2, 1] [1, 1, 1])
      : Except PyError MXArray)
      = Except.error (PyError.attnMaskSizeError e a) := h
  simp at h2

/-- Claim C5, amended: for attention calls that reach the shape checks —
those without a cache whose key/value source (when cross-attending) has the
same sequence length as the queries; every other call crashes in the
line-133 reshape before any check (cross-attention with
`src_len ≠ tgt_len`: see the counterexample; cached self-attention: see C2),
so every call reaching the mask check has `src_len = tgt_len` — the checks
behave exactly as claimed: the call fails with the mask-shape `ValueError`,
whose payload reports the expected `[bsz, 1, tgt_len, src_len]` and the
actual mask shape, iff the supplied mask's shape differs from it; the
attention-score `ValueError` is never raised (scores always have shape
`[bsz * heads, tgt_len, src_len]`); and with a well-shaped mask the call
succeeds. -/
theorem C5_shape_check_contract_amended (p : M2M100AttentionP)
    (hs m : MXArray) (key_value_states : Option MXArray) (b t : ℕ)
    (hshape : hs.shape = [b, t, p.embed_dim])
    (hkvs : ∀ kvs, key_value_states = some kvs → kvs.shape = [b, t, p.embed_dim])
    (hdim : p.embed_dim = p.num_heads * p.head_dim)
    (hb : 0 < b) (hh : 0 < p.num_heads) (hhd : 0 < p.head_dim) :
    (M2M100Attention_call p hs key_value_states none (some m)
        = Except.error (PyError.attnMaskSizeError [b, 1, t, t] m.shape)
      ↔ m.shape ≠ [b, 1, t, t])
    ∧ (∀ e a, M2M100Attention_call p hs key_value_states none (some m)
        ≠ Except.error (PyError.attnWeightsSizeError e a))
    ∧ (m.shape = [b, 1, t, t] →
        ∃ out, M2M100Attention_call p hs key_value_states none (some m)
          = Except.ok out ∧ out.shape = [b, t, p.embed_dim]) := by
  cases key_value_states with
  | none =>
    by_cases hm : m.shape = [b, 1, t, t]
    · obtain ⟨out, hok, hsh⟩ := M2M100Attention_selfNoCache_ok p hs m b t
        hshape hdim hb hh hhd hm
      refine ⟨⟨?_, fun hne => absurd hm hne⟩, ?_, fun _ => ⟨out, hok, hsh⟩⟩
      · intro he
        rw [he] at hok
        simp at hok
      · intro e a he
        rw [he] at hok
        simp at hok
    · have herr := M2M100Attention_selfNoCache_maskErr p hs m b t
        hshape hdim hb hh hhd hm
      refine ⟨⟨fun _ => hm, fun _ => herr⟩, ?_, fun hmm => absurd hmm hm⟩
      intro e a he
      rw [herr] at he
      simp at he
  | some kvs =>
    have hk := hkvs kvs rfl
    by_cases hm : m.shape = [b, 1, t, t]
    · obtain ⟨out, hok, hsh⟩ := M2M100Attention_crossNoCache_ok p hs kvs m b t
        hshape hk hdim hb hh hhd hm
      refine ⟨⟨?_, fun hne => absurd hm hne⟩, ?_, fun _ => ⟨out, hok, hsh⟩⟩
      · intro he
        rw [he] at hok
        simp at hok
      · intro e a he
        rw [he] at hok
        simp at hok
    · have herr := M2M100Attention_crossNoCache_maskErr p hs kvs m b t
        hshape hk hdim hb hh hhd hm
      refine ⟨⟨fun _ => hm, fun _ => herr⟩, ?_, fun hmm => absurd hmm hm⟩
      intro e a he
      rw [herr] at he
      simp at he

/-- Witness for C5's amended theorem at a concrete input, exercising the
cross-attention branch: `embed_dim = 2`, one head, queries and key/value
source of shape `[1, 1, 2]` (equal lengths) and a mask of (wrong) shape
`[1, 1, 1, 3]`. -/
theorem C5_shape_check_amended_witness :
    M2M100Attention_call fixAttnEnc (zeros [1, 1, 2]) (some (zeros [1, 1, 2]))
        none (some (zeros [1, 1, 1, 3]))
      = Except.error (PyError.attnMaskSizeError [1, 1, 1, 1] [1, 1, 1, 3]) := by
  have h := C5_shape_check_contract_amended fixAttnEnc (zeros [1, 1, 2])
    (zeros [1, 1, 1, 3]) (some (zeros [1, 1, 2])) 1 1 rfl
    (fun kvs hk => by injection hk with h2; rw [← h2]; rfl) rfl
    (by decide) (by decide) (by decide)
  exact h.1.mpr (by decide)

/-- Claim C6, counterexample: `M2M100Attention.__init__` performs no
divisibility check.  Constructing with `embed_dim = 10, num_heads = 3`
succeeds (no error of any kind is modelled because the source raises none)
and yields `head_dim = 10 // 3 = 3`, so `embed_dim ≠ num_heads * head_dim`. -/
theorem C6_no_divisibility_check :
    (M2M100Attention_init 10 3 0 false true false zeroLP zeroLP zeroLP
      zeroLP).head_dim = 3
    ∧ (10 : ℕ) ≠ (M2M100Attention_init 10 3 0 false true false zeroLP zeroLP
        zeroLP zeroLP).num_heads
      * (M2M100Attention_init 10 3 0 false true false zeroLP zeroLP zeroLP
        zeroLP).head_dim :=
  ⟨rfl, by decide⟩

/-- Claim C6, amended: `embed_dim = num_heads × head_dim` holds exactly
whenever `num_heads` divides `embed_dim`; the constructor never checks this
and never raises (for indivisible configs `head_dim` is floored and the
product differs, see the counterexample). -/
theorem C6_product_exact_when_divisible (embed_dim num_heads : ℕ)
    (dropout : ℝ) (is_decoder bias is_causal : Bool)
    (k_proj v_proj q_proj out_proj : LinearParams)
    (hdvd : num_heads ∣ embed_dim) :
    embed_dim = num_heads * (M2M100Attention_init embed_dim num_heads dropout
      is_decoder bias is_causal k_proj v_proj q_proj out_proj).head_dim := by
  show embed_dim = num_heads * (embed_dim / num_heads)
  exact (Nat.mul_div_cancel' hdvd).symm

/-- Witness for C6's amended theorem at `embed_dim = 8, num_heads = 2`. -/
theorem C6_product_exact_witness :
    (2 : ℕ) ∣ 8
    ∧ (8 : ℕ) = 2 * (M2M100Attention_init 8 2 0 true true false zeroLP zeroLP
        zeroLP zeroLP).head_dim :=
  ⟨by decide, C6_product_exact_when_divisible 8 2 0 true true false
    zeroLP zeroLP zeroLP zeroLP (by decide)⟩

/-- Claim C8: the encoder forward pass is deterministic — the embedding is a
pure function of the module parameters and the inputs (the source's inference
path contains no sampling, no dropout application and no other hidden state),
so two runs on identical input produce identical output. -/
theorem C8_encoder_deterministic (enc : M2M100EncoderP)
    (input_ids : List (List ℕ)) (attention_mask : Option (List (List ℕ))) :
    M2M100Encoder_call enc input_ids attention_mask
      = M2M100Encoder_call enc input_ids attention_mask := rfl

/-- Claim C10: `M2M100Decoder.__call__` fails on every input before any
decoder layer executes: its first statement `input_ids.size()` calls the
`int`-valued `size` property of the mlx array, raising
`TypeError: 'int' object is not callable`.  The result is this error for
every input and is independent of the decoder's weights and layers (second
conjunct), i.e. no layer ever runs. -/
theorem C10_decoder_call_raises_before_layers (dec dec2 : M2M100DecoderP)
    (input_ids : MXArray) (encoder_hidden_states : Option MXArray)
    (attention_mask encoder_attention_mask : Option MXArray)
    (past_key_values : Option (List (MXArray × MXArray))) :
    M2M100Decoder_call dec input_ids encoder_hidden_states attention_mask
        encoder_attention_mask past_key_values
      = Except.error (PyError.typeErrorNotCallable input_ids.shape.prod)
    ∧ M2M100Decoder_call dec input_ids encoder_hidden_states attention_mask
        encoder_attention_mask past_key_values
      = M2M100Decoder_call dec2 input_ids encoder_hidden_states attention_mask
        encoder_attention_mask past_key_values :=
  ⟨rfl, rfl⟩

theorem argmaxIdx_isFirstArgmax :
    ∀ (l : List ℝ), l ≠ [] → isFirstArgmax l (argmaxIdx l)
  | [], h => absurd rfl h
  | [x], _ => by
    refine ⟨by simp [argmaxIdx], ?_, ?_⟩
    · intro j hj
      have hj0 : j = 0 := by
        simp [argmaxIdx] at hj ⊢
        omega
      subst hj0
      simp [argmaxIdx]
    · intro j hj
      simp [argmaxIdx] at hj
  | x :: y :: xs, _ => by
    obtain ⟨ihlt, ihle, ihstrict⟩ :=
      argmaxIdx_isFirstArgmax (y :: xs) (by simp)
    by_cases hx : x < (y :: xs).getD (argmaxIdx (y :: xs)) 0
    · have harg : argmaxIdx (x :: y :: xs) = argmaxIdx (y :: xs) + 1 := by
        simp only [argmaxIdx]
        rw [if_pos hx]
      rw [harg]
      refine ⟨by simpa using Nat.succ_lt_succ ihlt, ?_, ?_⟩
      · intro j hj
        cases j with
        | zero =>
          simpa [List.getD_cons_zero, List.getD_cons_succ] using le_of_lt hx
        | succ k =>
          simp only [List.getD_cons_succ]
          exact ihle k (by simpa using hj)
      · intro j hj
        cases j with
        | zero =>
          simpa [List.getD_cons_zero, List.getD_cons_succ] using hx
        | succ k =>
          simp only [List.getD_cons_succ]
          exact ihstrict k (by omega)
    · have harg : argmaxIdx (x :: y :: xs) = 0 := by
        simp only [argmaxIdx]
        rw [if_neg hx]
      rw [harg]
      refine ⟨by simp, ?_, ?_⟩
      · intro j hj
        cases j with
        | zero => simp
        | succ k =>
          simp only [List.getD_cons_succ, List.getD_cons_zero]
          calc (y :: xs).getD k 0
              ≤ (y :: xs).getD (argmaxIdx (y :: xs)) 0 :=
                ihle k (by simpa using hj)
            _ ≤ x := not_lt.mp hx
      · intro j hj
        simp at hj

theorem getD_map_lt {α β : Type} (f : α → β) (l : List α) (i : ℕ)
    (hi : i < l.length) (d : α) (d2 : β) :
    (l.map f).getD i d2 = f (l.getD i d) := by
  induction l generalizing i with
  | nil => simp at hi
  | cons a as ih =>
    cases i with
    | zero => simp
    | succ n =>
      simp only [List.map_cons, List.getD_cons_succ]
      exact ih n (by simpa using hi)

theorem getD_zipWith_append (l1 : List (List ℕ)) (l2 : List ℕ) (i : ℕ)
    (hi : i < l1.length) (hlen : l2.length = l1.length) :
    (List.zipWith (fun r tok => r ++ [tok]) l1 l2).getD i []
      = l1.getD i [] ++ [l2.getD i 0] := by
  induction l1 generalizing l2 i with
  | nil => simp at hi
  | cons a as ih =>
    cases l2 with
    | nil => simp at hlen
    | cons b bs =>
      cases i with
      | zero => simp
      | succ n =>
        simp only [List.zipWith_cons_cons, List.getD_cons_succ]
        exact ih bs n (by simpa using hi) (by simpa using hlen)

theorem zipWith_append_replicate (l : List (List ℕ)) (n : ℕ)
    (hl : l.length = n) :
    List.zipWith (fun r o => r ++ o) l (List.replicate n ([1] : List ℕ))
      = l.map (fun r => r ++ [1]) := by
  induction l generalizing n with
  | nil => simp
  | cons a as ih =>
    cases n with
    | zero => simp at hl
    | succ m =>
      simp only [List.replicate_succ, List.zipWith_cons_cons, List.map_cons]
      rw [ih m (by simpa using hl)]

theorem forwardMlxLoop_ids_rowcount
    (f : List (List ℕ) → List (List ℕ) → List (List ℝ)) (bsz : ℕ)
    (s0 : DecodeState)
    (hf : ∀ ids mask, (f ids mask).length = ids.length) (n : ℕ) :
    (forwardMlxLoop f bsz s0 n).decoder_input_ids.length
      = s0.decoder_input_ids.length := by
  induction n with
  | zero => rfl
  | succ k ih =>
    show (greedyStep f bsz (forwardMlxLoop f bsz s0 k)).decoder_input_ids.length
      = _
    simp only [greedyStep]
    rw [List.length_zipWith, List.length_map, hf, Nat.min_self, ih]

theorem forwardMlxLoop_mask_content
    (f : List (List ℕ) → List (List ℕ) → List (List ℝ)) (bsz : ℕ)
    (s0 : DecodeState) (hmask : s0.decoder_input_mask.length = bsz) (n : ℕ) :
    (forwardMlxLoop f bsz s0 n).decoder_input_mask
      = s0.decoder_input_mask.map (fun r => r ++ List.replicate n 1) := by
  induction n with
  | zero => simp [forwardMlxLoop]
  | succ k ih =>
    show (greedyStep f bsz (forwardMlxLoop f bsz s0 k)).decoder_input_mask = _
    simp only [greedyStep]
    rw [ih, zipWith_append_replicate _ bsz (by rw [List.length_map, hmask])]
    rw [List.map_map]
    congr 1
    funext r
    simp only [Function.comp]
    rw [List.append_assoc, ← List.replicate_succ']

theorem forwardMlxLoop_row_step
    (f : List (List ℕ) → List (List ℕ) → List (List ℝ)) (bsz : ℕ)
    (s0 : DecodeState)
    (hf : ∀ ids mask, (f ids mask).length = ids.length) (k i : ℕ)
    (hi : i < s0.decoder_input_ids.length) :
    (forwardMlxLoop f bsz s0 (k + 1)).decoder_input_ids.getD i []
      = (forwardMlxLoop f bsz s0 k).decoder_input_ids.getD i []
        ++ [argmaxIdx ((f (forwardMlxLoop f bsz s0 k).decoder_input_ids
            (forwardMlxLoop f bsz s0 k).decoder_input_mask).getD i [])] := by
  have hcount := forwardMlxLoop_ids_rowcount f bsz s0 hf k
  show (greedyStep f bsz (forwardMlxLoop f bsz s0 k)).decoder_input_ids.getD i []
    = _
  simp only [greedyStep]
  rw [getD_zipWith_append _ _ i (by rw [hcount]; exact hi)
    (by rw [List.length_map, hf])]
  congr 1
  rw [getD_map_lt argmaxIdx _ i (by rw [hf, hcount]; exact hi) [] 0]

theorem forwardMlxLoop_row_length
    (f : List (List ℕ) → List (List ℕ) → List (List ℝ)) (bsz : ℕ)
    (s0 : DecodeState)
    (hf : ∀ ids mask, (f ids mask).length = ids.length) (n i : ℕ)
    (hi : i < s0.decoder_input_ids.length) :
    ((forwardMlxLoop f bsz s0 n).decoder_input_ids.getD i []).length
      = (s0.decoder_input_ids.getD i []).length + n := by
  induction n with
  | zero => rfl
  | succ k ih =>
    rw [forwardMlxLoop_row_step f bsz s0 hf k i hi, List.length_append, ih]
    simp [Nat.add_assoc]

/-- Claim C7: the greedy decode loop of `forward_mlx`, run for `N` steps over
any last-position logits oracle that returns one logits row per batch row:
(1) the number of batch rows is preserved; (2) every row's length grows by
exactly `N` (so exactly `N` tokens are appended per row); (3) the attention
mask rows are each extended by exactly `N` ones; (4) each step appends, per
row, exactly `argmaxIdx` of that step's last-position logits row — and
(5) `argmaxIdx` is the (first) index of the highest logit, i.e. greedy
selection with no sampling. -/
theorem C7_greedy_decode_loop
    (f : List (List ℕ) → List (List ℕ) → List (List ℝ)) (bsz : ℕ)
    (s0 : DecodeState) (N : ℕ)
    (hf : ∀ ids mask, (f ids mask).length = ids.length)
    (hmask : s0.decoder_input_mask.length = bsz) :
    ((forwardMlxLoop f bsz s0 N).decoder_input_ids.length
        = s0.decoder_input_ids.length)
    ∧ (∀ i, i < s0.decoder_input_ids.length →
        ((forwardMlxLoop f bsz s0 N).decoder_input_ids.getD i []).length
          = (s0.decoder_input_ids.getD i []).length + N)
    ∧ ((forwardMlxLoop f bsz s0 N).decoder_input_mask
        = s0.decoder_input_mask.map (fun r => r ++ List.replicate N 1))
    ∧ (∀ k i, i < s0.decoder_input_ids.length →
        (forwardMlxLoop f bsz s0 (k + 1)).decoder_input_ids.getD i []
          = (forwardMlxLoop f bsz s0 k).decoder_input_ids.getD i []
            ++ [argmaxIdx ((f (forwardMlxLoop f bsz s0 k).decoder_input_ids
                (forwardMlxLoop f bsz s0 k).decoder_input_mask).getD i [])])
    ∧ (∀ l : List ℝ, l ≠ [] → isFirstArgmax l (argmaxIdx l)) :=
  ⟨forwardMlxLoop_ids_rowcount f bsz s0 hf N,
   fun i hi => forwardMlxLoop_row_length f bsz s0 hf N i hi,
   forwardMlxLoop_mask_content f bsz s0 hmask N,
   fun k i hi => forwardMlxLoop_row_step f bsz s0 hf k i hi,
   fun l hl => argmaxIdx_isFirstArgmax l hl⟩

/-- Witness for C7 at the concrete initial state of `forward_mlx`
(`eos = 2`, target-language token `5`), batch 2, `N = 3` steps of the oracle
`C7logits`. -/
theorem C7_greedy_decode_loop_witness :
    (∀ ids mask, (C7logits ids mask).length = ids.length)
    ∧ (forwardMlxInit 2 5).decoder_input_mask.length = 2
    ∧ (forwardMlxLoop C7logits 2 (forwardMlxInit 2 5) 3).decoder_input_ids.length
        = 2
    ∧ (forwardMlxLoop C7logits 2 (forwardMlxInit 2 5) 3).decoder_input_mask
        = [[1, 1, 1, 1, 1], [1, 1, 1, 1, 1]] := by
  have hf : ∀ ids mask, (C7logits ids mask).length = ids.length := by
    intro ids mask
    simp [C7logits]
  have h := C7_greedy_decode_loop C7logits 2 (forwardMlxInit 2 5) 3 hf rfl
  refine ⟨hf, rfl, h.1.trans rfl, ?_⟩
  rw [h.2.2.1]
  rfl
